import Mathlib

set_option maxRecDepth 40000

/-!
Verification of the voice_assistance interview-bot service.

The development shallowly embeds the coordination core of `src/app.py`
(the `ongoing_requests` tracking table, the `/api/ask` dispatcher with its
nested `generate_with_cancellation`, the `/api/cancel` endpoint, the
fallback responder and the health check), the configuration data of
`src/config.py`, and the assistant-construction logic of
`src/dspy_agent.py`.  Python strings are Lean strings; the Python dict
`ongoing_requests` is a function from keys to `Option Bool`; code that may
raise is embedded in `Except`.
-/

/-! ## Python string primitives -/

/-- Python `pat in s` on character lists: `charsStartWith pat s` holds when
`pat` is an initial segment of `s`. -/
def charsStartWith : List Char → List Char → Bool
  | [], _ => true
  | _ :: _, [] => false
  | p :: ps, c :: cs => p == c && charsStartWith ps cs

/-- Predicate `charsContain pat s`: `pat` occurs contiguously somewhere in `s`. -/
def charsContain (pat : List Char) : List Char → Bool
  | [] => charsStartWith pat []
  | c :: cs => charsStartWith pat (c :: cs) || charsContain pat cs

/-- Python's substring test `pat in s`. -/
def pyIn (pat s : String) : Bool := charsContain pat.data s.data

/-- Python `s.lower()` (ASCII case folding, all that the source exercises). -/
def pyLower (s : String) : String := String.mk (s.data.map Char.toLower)

/-- Python `s.strip()`: drop leading and trailing whitespace. -/
def pyStrip (s : String) : String :=
  String.mk (((s.data.dropWhile Char.isWhitespace).reverse.dropWhile Char.isWhitespace).reverse)

/-! ## `src/config.py` -/

/-- The `PersonalInfo` dataclass of `src/config.py`. -/
structure PersonalInfo where
  name : String
  role : String
  experience : String
  life_story : String
  superpower : String
  growth_areas : List String
  misconception : String
  pushing_boundaries : String

/-- The `PERSONAL_INFO` constant of `src/config.py`, with the exact contents
of the Python triple-quoted literals (including line breaks, the trailing
space before each break and the four-space continuation indent). -/
def PERSONAL_INFO : PersonalInfo where
  name := "Mayank Goel"
  role := "Software Developer"
  experience := "2+ years"
  life_story := "I'm a passionate software developer with 2+ years of experience building \n    web applications. I started coding in college and fell in love with creating solutions \n    that make people's lives easier. I've worked on various projects from e-commerce \n    platforms to data visualization tools."
  superpower := "My #1 superpower is problem-solving and breaking down complex technical \n    challenges into manageable pieces. I have a knack for debugging and finding creative \n    solutions when others get stuck."
  growth_areas := ["System design and architecture for large-scale applications",
    "Machine learning and AI integration in web applications",
    "Leadership and mentoring junior developers"]
  misconception := "My coworkers sometimes think I'm overly focused on perfection, \n    but actually I believe in iterative improvement. I prefer shipping working code \n    and then refining it rather than getting stuck in analysis paralysis."
  pushing_boundaries := "I push my boundaries by taking on projects slightly outside \n    my comfort zone, contributing to open source, and staying updated with new technologies. \n    I also participate in hackathons and coding challenges to test my skills."

/-- Names of the attributes the `Config` class of `src/config.py` defines in
its class body.  `GEMINI_MODEL` and `GEMINI_API_KEY` are not among them. -/
def configAttributes : List String :=
  ["DEBUG", "OPENAI_API_KEY", "OPENAI_MODEL", "VOICE_LANGUAGE", "SPEECH_TIMEOUT",
   "MAX_RESPONSE_TOKENS", "RESPONSE_TEMPERATURE"]

/-- Python attribute lookup `hasattr(Config, a)` on the `Config` class. -/
def configHasAttr (a : String) : Bool := configAttributes.contains a

/-! ## Fallback responder (`VoiceInterviewBot._fallback_response`) -/

/-- Method `VoiceInterviewBot._fallback_response` of `src/app.py`: lower-case the
question, test the fixed keyword predicates in order, first match wins,
otherwise return the generic templated sentence. -/
def fallback_response (question : String) : String :=
  let question_lower := pyLower question
  if pyIn "life story" question_lower || pyIn "background" question_lower then
    PERSONAL_INFO.life_story
  else if pyIn "superpower" question_lower || pyIn "strength" question_lower then
    PERSONAL_INFO.superpower
  else if pyIn "growth" question_lower || pyIn "improve" question_lower then
    "The top 3 areas I'd like to grow in are: " ++ String.intercalate ", " PERSONAL_INFO.growth_areas
  else if pyIn "misconception" question_lower then
    PERSONAL_INFO.misconception
  else if pyIn "boundaries" question_lower || pyIn "limits" question_lower then
    PERSONAL_INFO.pushing_boundaries
  else
    "That's a great question! As a " ++ PERSONAL_INFO.role ++ " with " ++
      PERSONAL_INFO.experience ++
      " of experience, I believe in continuous learning and growth. I'd be happy to discuss this further in our conversation."

/-! ## The session tracking table (`ongoing_requests`) -/

/-- The module-level dict `ongoing_requests` of `src/app.py`, mapping a
session id to its liveness flag; an absent key is `none`. -/
def Tracker : Type := String → Option Bool

/-- The table at process start: empty. -/
def emptyTracker : Tracker := fun _ => none

/-- Registration `ongoing_requests[session_id] = True` (registration, line 126). -/
def registerSession (tr : Tracker) (sid : String) : Tracker :=
  fun x => if x = sid then some true else tr x

/-- The state effect of `ongoing_requests.pop(session_id, None)`
(lines 142 and 154): remove the entry if present. -/
def popSession (tr : Tracker) (sid : String) : Tracker :=
  fun x => if x = sid then none else tr x

/-- The state effect of the cancel endpoint (lines 164-165):
`if session_id in ongoing_requests: ongoing_requests[session_id] = False`. -/
def setCancelled (tr : Tracker) (sid : String) : Tracker :=
  if (tr sid).isSome then (fun x => if x = sid then some false else tr x) else tr

/-- Lookup `ongoing_requests.get(session_id, d)`: lookup with default. -/
def trackerGetD (tr : Tracker) (sid : String) (d : Bool) : Bool := (tr sid).getD d

/-- The spec-level `isLive` operation: the table lookup itself, `none` when
the id is absent (in the source, presence is observed with
`session_id in ongoing_requests` and the flag with
`ongoing_requests.get(session_id, ...)`). -/
def isLive (tr : Tracker) (sid : String) : Option Bool := tr sid

/-- A tracker operation performed by a handler on `ongoing_requests`,
recorded so that "no Tracker interaction" is expressible. -/
inductive TrackerOp where
  | register (sid : String)
  | pop (sid : String)
deriving DecidableEq

/-! ## Answer generation (`dspy_agent.py` / `VoiceInterviewBot`) -/

/-- Method `DSPyInterviewAssistant.answer_question` (src/dspy_agent.py lines
230-261).  Its argument is the outcome of the inner
`self.bot.process_question(question)` call: `Except.error e` embeds a
Python exception with message `e`, `Except.ok r` a returned response.  The
`except` clause converts an exception into an error-reporting answer
string; a successful but empty-or-short response is replaced by an apology
(`if not response_text or len(response_text.strip()) < 10`). -/
def answer_question (processOutcome : Except String String) : String :=
  match processOutcome with
  | .ok r =>
      if r = "" || (pyStrip r).length < 10 then
        "I'm sorry, I couldn't generate a proper response to that question."
      else r
  | .error e => "I encountered an error while processing your question: " ++ e

/-- Method `VoiceInterviewBot.generate_response` (src/app.py lines 41-68).
`ai_assistant` is `none` when DSPy initialisation failed, else
`some processOutcome` describing what `process_question` does for this
question.  With an assistant present the call goes through
`answer_question`; otherwise the fallback responder answers.
(`answer_question` is total, so the surrounding `except` clause of
`generate_response`, which would return an apology embedding the message,
is unreachable on this call chain.) -/
def generate_response (ai_assistant : Option (Except String String)) (question : String) : String :=
  match ai_assistant with
  | some processOutcome => answer_question processOutcome
  | none => fallback_response question

/-! ## `DSPyInterviewAssistant.__init__` and `VoiceInterviewBot.__init__` -/

/-- Constructor `DSPyInterviewAssistant.__init__` (src/dspy_agent.py lines 207-228): it
reads `Config.GEMINI_MODEL` and `Config.GEMINI_API_KEY`; a missing class
attribute raises `AttributeError`, which the method re-raises.  On success
it would build the assistant (represented by `Unit`). -/
def dspy_assistant_init : Except String Unit :=
  if configHasAttr "GEMINI_MODEL" = false then
    .error "type object 'Config' has no attribute 'GEMINI_MODEL'"
  else if configHasAttr "GEMINI_API_KEY" = false then
    .error "type object 'Config' has no attribute 'GEMINI_API_KEY'"
  else .ok ()

/-- Constructor `VoiceInterviewBot.__init__` (src/app.py lines 30-39): try to construct
`DSPyInterviewAssistant`; on any exception set `ai_assistant = None`.
`behavior` is the opaque generation behaviour the assistant would have had
if construction succeeded. -/
def bot_init_ai_assistant (behavior : Except String String) : Option (Except String String) :=
  match dspy_assistant_init with
  | .ok _ => some behavior
  | .error _ => none

/-! ## The dispatcher (`ask_question` and `generate_with_cancellation`) -/

/-- Result of the nested `generate_with_cancellation` closure: the answer
string, the table afterwards, whether `bot.generate_response` was invoked,
and the tracker operations the closure performed. -/
structure GenResult where
  answer : String
  tracker : Tracker
  invoked : Bool
  ops : List TrackerOp

/-- The nested `generate_with_cancellation` closure of `ask_question`
(src/app.py lines 129-142).  `cancelDuringGen` models an external
`/api/cancel` request landing between the generation call and the re-check
(the only interleaving point inside the closure at which another thread
can change the flag before it is read again).  The `finally` clause pops
the session entry on every path. -/
def generate_with_cancellation (tr : Tracker) (sid question : String)
    (ai_assistant : Option (Except String String)) (cancelDuringGen : Bool) : GenResult :=
  if trackerGetD tr sid false = false then
    { answer := "Request was cancelled", tracker := popSession tr sid,
      invoked := false, ops := [.pop sid] }
  else
    let response_text := generate_response ai_assistant question
    let tr2 := if cancelDuringGen then setCancelled tr sid else tr
    if trackerGetD tr2 sid false = false then
      { answer := "Request was cancelled", tracker := popSession tr2 sid,
        invoked := true, ops := [.pop sid] }
    else
      { answer := response_text, tracker := popSession tr2 sid,
        invoked := true, ops := [.pop sid] }

/-- Observable outcome of one `POST /api/ask` call: HTTP status, the
`success` flag, the `response` (or `error`) string of the JSON body, the
table afterwards, whether the generator was invoked, and the tracker
operations performed by the handler. -/
structure AskOutcome where
  status : Nat
  success : Bool
  body : String
  tracker : Tracker
  invoked : Bool
  ops : List TrackerOp

/-- The `ask_question` handler of `POST /api/ask` (src/app.py lines
112-155) at the level of already-extracted string fields:
`questionField`/`sessionField` are the JSON fields (absent = `none`,
defaults `""` and `"default"`).  `cancelBeforeCheck` models an external
cancel landing between registration and the closure's first liveness
check; `cancelDuringGen` one landing during generation. -/
def ask_question (tr : Tracker) (questionField sessionField : Option String)
    (ai_assistant : Option (Except String String))
    (cancelBeforeCheck cancelDuringGen : Bool) : AskOutcome :=
  let question := pyStrip (questionField.getD "")
  let session_id := sessionField.getD "default"
  if question = "" then
    { status := 400, success := false, body := "No question provided",
      tracker := tr, invoked := false, ops := [] }
  else
    let tr1 := registerSession tr session_id
    let tr1 := if cancelBeforeCheck then setCancelled tr1 session_id else tr1
    let r := generate_with_cancellation tr1 session_id question ai_assistant cancelDuringGen
    { status := 200, success := true, body := r.answer,
      tracker := r.tracker, invoked := r.invoked, ops := .register session_id :: r.ops }

/-! ## The cancel endpoint (`cancel_response`) -/

/-- Observable outcome of one `POST /api/cancel` call. -/
structure CancelOutcome where
  success : Bool
  message : String
  tracker : Tracker

/-- The `cancel_response` handler of `POST /api/cancel` (src/app.py lines
157-171): if the session id is present, set its flag to `False` and report
success; otherwise report that there is nothing to cancel. -/
def cancel_response (tr : Tracker) (sessionField : Option String) : CancelOutcome :=
  let session_id := sessionField.getD "default"
  if (tr session_id).isSome then
    { success := true, message := "Response generation cancelled",
      tracker := setCancelled tr session_id }
  else
    { success := false, message := "No ongoing request to cancel", tracker := tr }

/-! ## The health endpoint (`health_check`) -/

/-- Observable outcome of `GET /api/health`. -/
structure HealthOutcome where
  httpStatus : Nat
  status : String
  api_key_configured : Bool
  dspy_status : String

/-- The `health_check` handler of `GET /api/health` (src/app.py lines
225-260).  `apiKey` is `os.getenv('OPENAI_API_KEY')`
(`Config.OPENAI_API_KEY`); `api_key_configured` is Python
`bool(Config.OPENAI_API_KEY)`, false exactly for `None` and `""`.  Every
read in the `try` body is a total lookup of attributes that exist, so the
`except` branch (status 500, `"unhealthy"`) is unreachable and the handler
always returns HTTP 200. -/
def health_check (apiKey : Option String)
    (ai_assistant : Option (Except String String)) : HealthOutcome :=
  { httpStatus := 200
    status := "healthy"
    api_key_configured := !(apiKey.getD "").isEmpty
    dspy_status := if ai_assistant.isSome then "initialized" else "not available" }

/-! ## The JSON boundary of `POST /api/ask`

A refined model of the same handler, one level closer to the wire: the
parsed request body is an arbitrary JSON value, so the field reads of
lines 118-120 can raise, and the `except` clause's own reference to the
local `session_id` (line 154) can itself raise `NameError` when the first
exception occurred before `session_id` was assigned. -/

/-- A parsed JSON scalar as it can appear as a field value. -/
inductive BodyVal where
  | jstr (s : String)
  | jnum (n : Int)
  | jbool (b : Bool)
  | jnull
deriving DecidableEq

/-- A parsed request body: `some fields` is a JSON object (keys assumed
distinct, as produced by a JSON parser), `none` any non-object value, on
which `data.get` raises `AttributeError`. -/
def Body : Type := Option (List (String × BodyVal))

/-- A Python exception escaping the handler. -/
inductive PyExc where
  | attributeError (msg : String)
  | nameError (msg : String)
deriving DecidableEq

/-- Field lookup `fields[k]` for a parsed JSON object. -/
def bodyLookup (fields : List (String × BodyVal)) (k : String) : Option BodyVal :=
  (fields.find? (fun p => p.1 == k)).map Prod.snd

/-- The dict key a session-id JSON value becomes.  Python dict keys compare
by equality: distinct strings and numbers are distinct keys, while
`True`/`False` collide with the integers `1`/`0`, as in CPython. -/
def pyKey : BodyVal → String
  | .jstr s => "str:" ++ s
  | .jnum n => "int:" ++ toString n
  | .jbool b => "int:" ++ (if b then "1" else "0")
  | .jnull => "none"

/-- The full `ask_question` handler over a parsed JSON body (src/app.py
lines 112-155).  `data.get('question', '').strip()` raises
`AttributeError` when the body is not an object or the `question` value is
not a string; that raise happens before `session_id` is assigned, so the
`except` clause's `ongoing_requests.pop(session_id, None)` raises
`NameError`, which escapes the handler. -/
def ask_question_http (tr : Tracker) (body : Body)
    (ai_assistant : Option (Except String String))
    (cancelBeforeCheck cancelDuringGen : Bool) : Except PyExc AskOutcome :=
  match body with
  | none => .error (.nameError "name 'session_id' is not defined")
  | some fields =>
    match (bodyLookup fields "question").getD (.jstr "") with
    | .jstr q =>
        let sidv := (bodyLookup fields "session_id").getD (.jstr "default")
        .ok (ask_question tr (some q) (some (pyKey sidv)) ai_assistant
              cancelBeforeCheck cancelDuringGen)
    | _ => .error (.nameError "name 'session_id' is not defined")

/-- What the Flask app as a whole reports for one `POST /api/ask`: an
exception escaping the handler reaches the `errorhandler(500)` of
src/app.py lines 269-272, which answers with the generic body. -/
def app_ask_result (tr : Tracker) (body : Body)
    (ai_assistant : Option (Except String String))
    (cancelBeforeCheck cancelDuringGen : Bool) : Nat × String :=
  match ask_question_http tr body ai_assistant cancelBeforeCheck cancelDuringGen with
  | .ok out => (out.status, out.body)
  | .error _ => (500, "Internal server error")

/-! ## Helper lemmas -/

lemma setCancelled_other (tr : Tracker) (sid x : String) (hx : x ≠ sid) :
    setCancelled tr sid x = tr x := by
  unfold setCancelled
  split <;> simp [hx]

lemma popSession_self (tr : Tracker) (sid : String) : popSession tr sid sid = none := by
  simp [popSession]

lemma popSession_other (tr : Tracker) (sid x : String) (hx : x ≠ sid) :
    popSession tr sid x = tr x := by
  simp [popSession, hx]

lemma gwc_tracker_self (tr : Tracker) (sid q : String)
    (a : Option (Except String String)) (c2 : Bool) :
    (generate_with_cancellation tr sid q a c2).tracker sid = none := by
  by_cases h1 : trackerGetD tr sid false = false
  · simp [generate_with_cancellation, h1, popSession]
  · by_cases h2 : trackerGetD (if c2 then setCancelled tr sid else tr) sid false = false
    · simp [generate_with_cancellation, h1, h2, popSession]
    · simp [generate_with_cancellation, h1, h2, popSession]

lemma gwc_tracker_other (tr : Tracker) (sid q : String)
    (a : Option (Except String String)) (c2 : Bool) (x : String) (hx : x ≠ sid) :
    (generate_with_cancellation tr sid q a c2).tracker x = tr x := by
  have hpop : ∀ t : Tracker, popSession (if c2 then setCancelled t sid else t) sid x = t x := by
    intro t
    rw [popSession_other _ sid x hx]
    cases c2 <;> simp [setCancelled_other t sid x hx]
  by_cases h1 : trackerGetD tr sid false = false
  · simp [generate_with_cancellation, h1, popSession_other tr sid x hx]
  · by_cases h2 : trackerGetD (if c2 then setCancelled tr sid else tr) sid false = false
    · simp only [generate_with_cancellation, h1, if_false, h2, if_true]
      exact hpop tr
    · simp only [generate_with_cancellation, h1, if_false, h2, if_true]
      exact hpop tr

lemma registerSession_self (tr : Tracker) (sid : String) :
    registerSession tr sid sid = some true := by
  simp [registerSession]

lemma registerSession_other (tr : Tracker) (sid x : String) (hx : x ≠ sid) :
    registerSession tr sid x = tr x := by
  simp [registerSession, hx]

/-! ## Claim theorems -/

/-- C1: every `/api/ask` call that reaches session registration removes the
session's entry from `ongoing_requests` before returning, on every exit
path of the model (normal answer, cancellation short-circuit, generator
exception, any interleaved external cancel), and no other id's entry is
created or changed, so no entry is ever leaked. -/
theorem ask_question_retires_session (tr : Tracker) (qf sf : Option String)
    (a : Option (Except String String)) (c1 c2 : Bool)
    (h : pyStrip (qf.getD "") ≠ "") :
    (ask_question tr qf sf a c1 c2).tracker (sf.getD "default") = none ∧
    ∀ x, x ≠ sf.getD "default" → (ask_question tr qf sf a c1 c2).tracker x = tr x := by
  constructor
  · simp only [ask_question, h, if_false]
    exact gwc_tracker_self _ _ _ a c2
  · intro x hx
    simp only [ask_question, h, if_false]
    rw [gwc_tracker_other _ _ _ a c2 x hx]
    cases c1 <;>
      simp [setCancelled_other _ _ x hx, registerSession_other tr _ x hx]

/-- Witness for C1 at a concrete input. -/
theorem ask_question_retires_session_witness :
    pyStrip ((some "hi" : Option String).getD "") ≠ "" ∧
    (ask_question emptyTracker (some "hi") (some "s1") none false false).tracker "s1" = none ∧
    (ask_question emptyTracker (some "hi") (some "s1") none false false).tracker "zz" =
      emptyTracker "zz" :=
  ⟨by decide,
   (ask_question_retires_session emptyTracker (some "hi") (some "s1") none false false
      (by decide)).1,
   (ask_question_retires_session emptyTracker (some "hi") (some "s1") none false false
      (by decide)).2 "zz" (by decide)⟩

/-- C2: in `generate_with_cancellation`, a liveness flag read as false at
the check before generation short-circuits with exactly the literal
`"Request was cancelled"` without invoking the generator, and a flag read
as false at the re-check after generation discards the generated answer
and returns the same literal. -/
theorem gwc_cancellation_checks (tr : Tracker) (sid q : String)
    (a : Option (Except String String)) (c2 : Bool) :
    (trackerGetD tr sid false = false →
      (generate_with_cancellation tr sid q a c2).answer = "Request was cancelled" ∧
      (generate_with_cancellation tr sid q a c2).invoked = false) ∧
    (trackerGetD tr sid false = true →
      trackerGetD (if c2 then setCancelled tr sid else tr) sid false = false →
      (generate_with_cancellation tr sid q a c2).answer = "Request was cancelled" ∧
      (generate_with_cancellation tr sid q a c2).invoked = true) := by
  constructor
  · intro h1
    simp [generate_with_cancellation, h1]
  · intro h1 h2
    simp [generate_with_cancellation, h1, h2]

/-- Witness for C2: the first arm on an empty table, the second arm on a
registered session cancelled during generation. -/
theorem gwc_cancellation_checks_witness :
    ((generate_with_cancellation emptyTracker "a" "q" none false).answer =
        "Request was cancelled" ∧
      (generate_with_cancellation emptyTracker "a" "q" none false).invoked = false) ∧
    ((generate_with_cancellation (registerSession emptyTracker "b") "b" "q" none true).answer =
        "Request was cancelled" ∧
      (generate_with_cancellation (registerSession emptyTracker "b") "b" "q" none true).invoked =
        true) :=
  ⟨(gwc_cancellation_checks emptyTracker "a" "q" none false).1 (by decide),
   (gwc_cancellation_checks (registerSession emptyTracker "b") "b" "q" none true).2
     (by decide) (by decide)⟩

/-- C3: a question that is empty after stripping whitespace makes
`/api/ask` fail with the 400 client error `"No question provided"`, the
table is returned unchanged, and the handler performs no tracker operation
at all, so no entry appears even transiently. -/
theorem ask_question_empty_validation (tr : Tracker) (qf sf : Option String)
    (a : Option (Except String String)) (c1 c2 : Bool)
    (h : pyStrip (qf.getD "") = "") :
    (ask_question tr qf sf a c1 c2).status = 400 ∧
    (ask_question tr qf sf a c1 c2).success = false ∧
    (ask_question tr qf sf a c1 c2).body = "No question provided" ∧
    (ask_question tr qf sf a c1 c2).tracker = tr ∧
    (ask_question tr qf sf a c1 c2).ops = [] := by
  simp [ask_question, h]

/-- Witness for C3 at a whitespace-only question. -/
theorem ask_question_empty_validation_witness :
    pyStrip ((some "  \t " : Option String).getD "") = "" ∧
    (ask_question emptyTracker (some "  \t ") (some "s1") none false false).status = 400 ∧
    (ask_question emptyTracker (some "  \t ") (some "s1") none false false).ops = [] :=
  ⟨by decide,
   (ask_question_empty_validation emptyTracker (some "  \t ") (some "s1") none false false
      (by decide)).1,
   (ask_question_empty_validation emptyTracker (some "  \t ") (some "s1") none false false
      (by decide)).2.2.2.2⟩

/-- C4: the cancel endpoint sets the entry's flag to false exactly when the
id is present, reports whether an entry existed, is idempotent on the
table, is not an error on an absent or already-cancelled session, and
after cancelling a live session `isLive` reads false until the id is
registered again. -/
theorem cancel_response_signal_spec (tr : Tracker) (s : String) :
    ((cancel_response tr (some s)).tracker s =
        if (tr s).isSome then some false else none) ∧
    (cancel_response tr (some s)).success = (tr s).isSome ∧
    (tr s = some true → isLive (cancel_response tr (some s)).tracker s = some false) ∧
    ((cancel_response tr (some s)).tracker s = none → (cancel_response tr (some s)).tracker = tr) ∧
    (cancel_response (cancel_response tr (some s)).tracker (some s)).tracker =
      (cancel_response tr (some s)).tracker ∧
    isLive (registerSession (cancel_response tr (some s)).tracker s) s = some true := by
  by_cases h : (tr s).isSome
  · obtain ⟨b, hb⟩ := Option.isSome_iff_exists.mp h
    refine ⟨?_, ?_, ?_, ?_, ?_, ?_⟩
    · simp [cancel_response, setCancelled, h, hb]
    · simp [cancel_response, h, hb]
    · intro _
      simp [cancel_response, setCancelled, isLive, h, hb]
    · intro habs
      simp [cancel_response, setCancelled, h, hb] at habs
    · have h2 : ((cancel_response tr (some s)).tracker s).isSome := by
        simp [cancel_response, setCancelled, h, hb]
      funext x
      by_cases hx : x = s
      · subst hx
        simp [cancel_response, setCancelled, h, hb, h2]
      · simp [cancel_response, setCancelled, h, hb, h2, hx]
    · simp [isLive, registerSession]
  · have hn : tr s = none := Option.not_isSome_iff_eq_none.mp h
    refine ⟨?_, ?_, ?_, ?_, ?_, ?_⟩
    · simp [cancel_response, h, hn]
    · simp [cancel_response, h, hn]
    · intro hlive
      rw [hlive] at hn
      exact absurd hn (by simp)
    · intro _
      simp [cancel_response, h]
    · simp [cancel_response, h, hn]
    · simp [cancel_response, h, isLive, registerSession]

/-- Witness for C4 on a live session. -/
theorem cancel_response_signal_spec_witness :
    (registerSession emptyTracker "s7") "s7" = some true ∧
    isLive (cancel_response (registerSession emptyTracker "s7") (some "s7")).tracker "s7" =
      some false ∧
    (cancel_response (registerSession emptyTracker "s7") (some "s7")).success =
      ((registerSession emptyTracker "s7") "s7").isSome :=
  ⟨by decide,
   (cancel_response_signal_spec (registerSession emptyTracker "s7") "s7").2.2.1 (by decide),
   (cancel_response_signal_spec (registerSession emptyTracker "s7") "s7").2.1⟩

/-- C5: for an id with no entry (never registered or already retired) the
table lookup `isLive` yields the distinct `none`, never `some true` or
`some false`; the dispatcher treats the absent entry as not-live (it
short-circuits without invoking the generator rather than treating the
session as still live), and the cancel endpoint reports nothing to
cancel. -/
theorem isLive_absent_spec (tr : Tracker) (s q : String)
    (a : Option (Except String String)) (c2 : Bool) (h : tr s = none) :
    isLive tr s = none ∧ isLive tr s ≠ some true ∧ isLive tr s ≠ some false ∧
    (generate_with_cancellation tr s q a c2).answer = "Request was cancelled" ∧
    (generate_with_cancellation tr s q a c2).invoked = false ∧
    (cancel_response tr (some s)).success = false ∧
    (cancel_response tr (some s)).message = "No ongoing request to cancel" := by
  refine ⟨by simp [isLive, h], by simp [isLive, h], by simp [isLive, h], ?_, ?_, ?_, ?_⟩
  · exact ((gwc_cancellation_checks tr s q a c2).1 (by simp [trackerGetD, h])).1
  · exact ((gwc_cancellation_checks tr s q a c2).1 (by simp [trackerGetD, h])).2
  · simp [cancel_response, h]
  · simp [cancel_response, h]

/-- Witness for C5 on the empty table. -/
theorem isLive_absent_spec_witness :
    emptyTracker "never" = none ∧
    isLive emptyTracker "never" = none ∧
    (generate_with_cancellation emptyTracker "never" "hi" none false).answer =
      "Request was cancelled" ∧
    (cancel_response emptyTracker (some "never")).message = "No ongoing request to cancel" :=
  ⟨by decide,
   (isLive_absent_spec emptyTracker "never" "hi" none false (by decide)).1,
   (isLive_absent_spec emptyTracker "never" "hi" none false (by decide)).2.2.2.1,
   (isLive_absent_spec emptyTracker "never" "hi" none false (by decide)).2.2.2.2.2.2⟩

/-- C6: the fallback responder lower-cases the question and applies the
fixed first-match-wins keyword predicates: `"Tell me about your
background"` yields exactly the configured life-story field,
`"random unrelated text"` matches no predicate and yields the generic
templated sentence, which contains the role and experience fields as
substrings; and every input yields a non-empty string. -/
theorem fallback_response_keyword_spec :
    fallback_response "Tell me about your background" = PERSONAL_INFO.life_story ∧
    fallback_response "random unrelated text" =
      "That's a great question! As a Software Developer with 2+ years of experience, I believe in continuous learning and growth. I'd be happy to discuss this further in our conversation." ∧
    pyIn PERSONAL_INFO.role (fallback_response "random unrelated text") = true ∧
    pyIn PERSONAL_INFO.experience (fallback_response "random unrelated text") = true ∧
    ∀ q, fallback_response q ≠ "" := by
  refine ⟨by decide, by decide, by decide, by decide, ?_⟩
  intro q
  simp only [fallback_response]
  split_ifs <;> decide

/-- C7: when the generation call raises, the exception is caught below the
dispatcher and converted into an answer string embedding the exception's
message; the `/api/ask` call still returns a normal success response (no
raw exception crosses the HTTP boundary) and the session entry is still
retired. -/
theorem generation_error_contained (tr : Tracker) (qf sf : Option String) (e : String)
    (h : pyStrip (qf.getD "") ≠ "") :
    (ask_question tr qf sf (some (Except.error e)) false false).status = 200 ∧
    (ask_question tr qf sf (some (Except.error e)) false false).success = true ∧
    (ask_question tr qf sf (some (Except.error e)) false false).body =
      "I encountered an error while processing your question: " ++ e ∧
    pyIn e ((ask_question tr qf sf (some (Except.error e)) false false).body) = true ∧
    (ask_question tr qf sf (some (Except.error e)) false false).tracker (sf.getD "default") =
      none := by
  have hlive : trackerGetD (registerSession tr (sf.getD "default")) (sf.getD "default") false
      = true := by
    simp [trackerGetD, registerSession]
  refine ⟨?_, ?_, ?_, ?_, ?_⟩
  · simp [ask_question, h]
  · simp [ask_question, h]
  · simp [ask_question, h, generate_with_cancellation, hlive, generate_response,
      answer_question]
  · have hb : (ask_question tr qf sf (some (Except.error e)) false false).body =
        "I encountered an error while processing your question: " ++ e := by
      simp [ask_question, h, generate_with_cancellation, hlive, generate_response,
        answer_question]
    rw [hb]
    simp only [pyIn]
    have : ∀ pre : List Char, charsContain e.data (pre ++ e.data) = true := by
      intro pre
      induction pre with
      | nil =>
        cases hd : e.data with
        | nil => simp [charsContain, hd, charsStartWith]
        | cons c cs =>
          have hsw : ∀ l : List Char, charsStartWith l l = true := by
            intro l
            induction l with
            | nil => rfl
            | cons x xs ih => simp [charsStartWith, ih]
          simp [charsContain, hd, hsw]
      | cons c cs ih =>
        simp only [List.cons_append, charsContain, List.append_eq, ih, Bool.or_true]
    have hdata : ("I encountered an error while processing your question: " ++ e).data =
        ("I encountered an error while processing your question: ").data ++ e.data := by
      simp [String.data_append]
    rw [hdata]
    exact this _
  · simp only [ask_question, h, if_false]
    exact gwc_tracker_self _ _ _ _ _

/-- Witness for C7 at a concrete exception message. -/
theorem generation_error_contained_witness :
    pyStrip ((some "hello" : Option String).getD "") ≠ "" ∧
    (ask_question emptyTracker (some "hello") (some "s2") (some (Except.error "boom"))
        false false).body =
      "I encountered an error while processing your question: boom" ∧
    (ask_question emptyTracker (some "hello") (some "s2") (some (Except.error "boom"))
        false false).tracker "s2" = none :=
  ⟨by decide,
   (generation_error_contained emptyTracker (some "hello") (some "s2") "boom"
      (by decide)).2.2.1,
   (generation_error_contained emptyTracker (some "hello") (some "s2") "boom"
      (by decide)).2.2.2.2⟩

/-- C8: the health endpoint returns HTTP 200 with field `status` equal to
`"healthy"` for every configuration, whether or not the answer generator
was configured or initialised, and its response carries the
`api_key_configured` flag (the truthiness of the configured key). -/
theorem health_check_healthy (apiKey : Option String)
    (ai : Option (Except String String)) :
    (health_check apiKey ai).httpStatus = 200 ∧
    (health_check apiKey ai).status = "healthy" ∧
    (health_check apiKey ai).api_key_configured = !(apiKey.getD "").isEmpty ∧
    (health_check apiKey ai).dspy_status =
      (if ai.isSome then "initialized" else "not available") :=
  ⟨rfl, rfl, rfl, rfl⟩

/-- C9: constructing the answer generator always fails because the
`Config` class defines no `GEMINI_MODEL` (nor `GEMINI_API_KEY`) attribute,
`VoiceInterviewBot.__init__` therefore stores `None` for the assistant,
and every question is consequently answered by the fallback responder,
never by the generator. -/
theorem dspy_init_always_fails (behavior : Except String String) (q : String) :
    configHasAttr "GEMINI_MODEL" = false ∧
    configHasAttr "GEMINI_API_KEY" = false ∧
    dspy_assistant_init =
      Except.error "type object 'Config' has no attribute 'GEMINI_MODEL'" ∧
    bot_init_ai_assistant behavior = none ∧
    generate_response (bot_init_ai_assistant behavior) q = fallback_response q :=
  ⟨rfl, rfl, rfl, rfl, rfl⟩

/-- C10: a `POST /api/ask` body whose `question` value is not a string
raises before `session_id` is assigned; the handler's own `except` clause
then evaluates the unbound `session_id` and raises `NameError`, so the
exception escapes the handler uncaught and surfaces only as the app-level
generic 500 response. -/
theorem ask_nonstring_question_escapes (tr : Tracker)
    (a : Option (Except String String)) (c1 c2 : Bool) :
    ask_question_http tr (some [("question", BodyVal.jnum 5)]) a c1 c2 =
      Except.error (PyExc.nameError "name 'session_id' is not defined") ∧
    app_ask_result tr (some [("question", BodyVal.jnum 5)]) a c1 c2 =
      (500, "Internal server error") :=
  ⟨rfl, rfl⟩
